import Mathlib

/-!
Shallow embedding of the virtio-over-PCI transport core of alioth
(`src/alioth/src/virtio/pci.rs` and `src/alioth/src/virtio/dev/dev.rs`).

Machine integers are modelled as `Nat` with explicit truncation wherever the
source truncates (`val as u8`, `val as u16`, `val as u32`).  The source's
`todo!()` calls, which panic at runtime, are modelled by the `MmioR.todo`
outcome, distinct from a normal `Ok` return.  Register offsets are the
`repr(C)` field offsets of `VirtioCommonCfg` / `VirtioPciRegister`, exactly as
produced by the `Layout` derive on the structs in `pci.rs`:

  device_feature_select (0,4), device_feature (4,4), driver_feature_select
  (8,4), driver_feature (12,4), config_msix_vector (16,2), num_queues (18,2),
  device_status (20,1), config_generation (21,1), queue_select (22,2),
  queue_size (24,2), queue_msix_vector (26,2), queue_enable (28,2),
  queue_notify_off (30,2), queue_desc_lo (32,4), queue_desc_hi (36,4),
  queue_driver_lo (40,4), queue_driver_hi (44,4), queue_device_lo (48,4),
  queue_device_hi (52,4), queue_notify_data (56,2), queue_reset (58,2);
  isr_status at offset 60 and the queue-notify doorbell area at offset 64.
-/

namespace Alioth

/-- `VIRTIO_MSI_NO_VECTOR` from `pci.rs`. -/
def VIRTIO_MSI_NO_VECTOR : Nat := 0xffff

/-- Modelled from the spec: `crate::utils::get_low32` / `get_atomic_low32`
(outside src/) — the low 32 bits of a 64-bit word. -/
def get_low32 (x : Nat) : Nat := x % 2 ^ 32

/-- Modelled from the spec: `crate::utils::get_high32` / `get_atomic_high32`
(outside src/) — the high 32 bits of a 64-bit word. -/
def get_high32 (x : Nat) : Nat := x / 2 ^ 32 % 2 ^ 32

/-- Modelled from the spec: `crate::utils::set_atomic_low32` (outside src/) —
replace the low 32 bits of a 64-bit word. -/
def set_low32 (x v : Nat) : Nat := x / 2 ^ 32 * 2 ^ 32 + v % 2 ^ 32

/-- Modelled from the spec: `crate::utils::set_atomic_high32` (outside src/) —
replace the high 32 bits of a 64-bit word. -/
def set_high32 (x v : Nat) : Nat := v % 2 ^ 32 * 2 ^ 32 + x % 2 ^ 32

/-- Modelled from the spec: `crate::virtio::queue::Queue` (outside src/), the
per-queue register block named `QueueConfig` in the spec — size, enabled flag
and the three ring addresses, all accessed atomically. -/
structure Queue where
  size : Nat
  enabled : Bool
  desc : Nat
  driver : Nat
  device : Nat
deriving DecidableEq, Repr

/-- `WakeEvent` from `dev.rs`.  The `irq_sender : Arc<S>` payload of `Start`
is modelled by an opaque identity tag (`Nat`): the register model always posts
a clone of the transport's own sender. -/
inductive WakeEvent where
  | notify (q_index : Nat)
  | shutdown
  | start (feature : Nat) (irq_sender : Nat)
  | reset
deriving DecidableEq, Repr

/-- Result of an MMIO access: `ok` models `Ok(_)`; `todo` models reaching a
`todo!()` in the source, which panics instead of returning. -/
inductive MmioR (α : Type) where
  | ok (v : α)
  | todo
deriving DecidableEq, Repr

/-- Modelled from the spec: `crate::virtio::DevStatus` (outside src/), the
spec's `DeviceStatus` 8-bit flag set with bits ACKNOWLEDGE, DRIVER, DRIVER_OK,
FEATURES_OK, DEVICE_NEEDS_RESET, FAILED at their standard virtio positions. -/
def DevStatus.ACKNOWLEDGE : Nat := 1

def DevStatus.DRIVER : Nat := 2

def DevStatus.DRIVER_OK : Nat := 4

def DevStatus.FEATURES_OK : Nat := 8

def DevStatus.DEVICE_NEEDS_RESET : Nat := 64

def DevStatus.FAILED : Nat := 128

/-- The union of all defined `DevStatus` bits. -/
def DevStatus.MASK : Nat := 0xcf

/-- `DevStatus::from_bits_truncate(val as u8)`: keep only defined bits. -/
def DevStatus.from_bits_truncate (v : Nat) : Nat := v % 256 &&& DevStatus.MASK

/-- The state shared between `VirtioPciRegisterMmio`, its `Register` block
(`dev.rs`), the MSI-X vector map and the wake channel.  `events` is the
sequence of events posted so far on the wake channel (`event_tx`), oldest
first; `irq_sender` is the identity of the transport's `PciIrqSender`. -/
structure RegState where
  device_feature : Nat
  driver_feature : Nat
  device_feature_sel : Nat
  driver_feature_sel : Nat
  queue_sel : Nat
  status : Nat
  config_msix : Nat
  queue_msix : List Nat
  queues : List Queue
  irq_sender : Nat
  events : List WakeEvent
deriving DecidableEq, Repr

/-- `VirtioPciRegisterMmio::wake_up_dev`: send the event on the wake channel
(then wake the worker; send/wake failures are only logged). -/
def wake_up_dev (s : RegState) (e : WakeEvent) : RegState :=
  { s with events := s.events ++ [e] }

/-- `VirtioPciRegisterMmio::reset`: store `NO_VECTOR` into the config vector
and every queue vector, and clear every queue's `enabled` flag. -/
def VirtioPciRegisterMmio.reset (s : RegState) : RegState :=
  { s with
    config_msix := VIRTIO_MSI_NO_VECTOR
    queue_msix := s.queue_msix.map fun _ => VIRTIO_MSI_NO_VECTOR
    queues := s.queues.map fun q => { q with enabled := false } }

/-- Update the selected queue's register block, a no-op when `queue_sel` is
out of range (`if let Some(q) = self.queues.get(q_sel)` in the source). -/
def writeQueueField (s : RegState) (f : Queue → Queue) : RegState :=
  match s.queues.get? s.queue_sel with
  | none => s
  | some q => { s with queues := s.queues.set s.queue_sel (f q) }

/-- Write to the selected queue's MSI-X vector slot, a no-op when out of
range. -/
def writeQueueMsix (s : RegState) (v : Nat) : RegState :=
  match s.queue_msix.get? s.queue_sel with
  | none => s
  | some _ => { s with queue_msix := s.queue_msix.set s.queue_sel (v % 2 ^ 16) }

/-- The `LAYOUT_DEVICE_STATUS` write arm of `VirtioPciRegisterMmio::write`:
swap in the truncated status; when the swap changed `DRIVER_OK`, post `Start`
(with a `driver_feature` snapshot and the transport's sender) on a rising
edge, or reset the transport and post `Reset` on a falling edge. -/
def write_status (s : RegState) (val : Nat) : RegState :=
  let status := DevStatus.from_bits_truncate val
  let old := s.status
  let s1 := { s with status := status }
  if (old ^^^ status) &&& DevStatus.DRIVER_OK ≠ 0 then
    if status &&& DevStatus.DRIVER_OK ≠ 0 then
      wake_up_dev s1 (.start s.driver_feature s.irq_sender)
    else
      wake_up_dev (VirtioPciRegisterMmio.reset s1) .reset
  else s1

/-- `VirtioPciRegisterMmio::read` (Mmio impl in `pci.rs`): dispatch on
`(offset, size)` in the source's match-arm order.  Unknown pairs are logged
and read as zero; `queue_notify_data` and `queue_reset` are `todo!()`. -/
def read (s : RegState) (offset sz : Nat) : MmioR Nat :=
  if offset = 0 ∧ sz = 4 then .ok s.device_feature_sel
  else if offset = 4 ∧ sz = 4 then
    .ok (if s.device_feature_sel > 0 then get_high32 s.device_feature
         else get_low32 s.device_feature)
  else if offset = 8 ∧ sz = 4 then .ok s.driver_feature_sel
  else if offset = 12 ∧ sz = 4 then
    .ok (if s.driver_feature_sel > 0 then get_high32 s.driver_feature
         else get_low32 s.driver_feature)
  else if offset = 16 ∧ sz = 2 then .ok s.config_msix
  else if offset = 18 ∧ sz = 2 then .ok s.queues.length
  else if offset = 20 ∧ sz = 1 then .ok s.status
  else if offset = 21 ∧ sz = 1 then .ok 0
  else if offset = 22 ∧ sz = 2 then .ok s.queue_sel
  else if offset = 24 ∧ sz = 2 then
    .ok (match s.queues.get? s.queue_sel with
         | some q => q.size
         | none => 0)
  else if offset = 26 ∧ sz = 2 then
    .ok (match s.queue_msix.get? s.queue_sel with
         | some v => v
         | none => VIRTIO_MSI_NO_VECTOR)
  else if offset = 28 ∧ sz = 2 then
    .ok (match s.queues.get? s.queue_sel with
         | some q => if q.enabled then 1 else 0
         | none => 0)
  else if offset = 30 ∧ sz = 2 then .ok s.queue_sel
  else if offset = 32 ∧ sz = 4 then
    .ok (match s.queues.get? s.queue_sel with
         | some q => get_low32 q.desc
         | none => 0)
  else if offset = 36 ∧ sz = 4 then
    .ok (match s.queues.get? s.queue_sel with
         | some q => get_high32 q.desc
         | none => 0)
  else if offset = 40 ∧ sz = 4 then
    .ok (match s.queues.get? s.queue_sel with
         | some q => get_high32 q.driver
         | none => 0)
  else if offset = 44 ∧ sz = 4 then
    .ok (match s.queues.get? s.queue_sel with
         | some q => get_high32 q.driver
         | none => 0)
  else if offset = 48 ∧ sz = 4 then
    .ok (match s.queues.get? s.queue_sel with
         | some q => get_high32 q.device
         | none => 0)
  else if offset = 52 ∧ sz = 4 then
    .ok (match s.queues.get? s.queue_sel with
         | some q => get_high32 q.device
         | none => 0)
  else if offset = 56 ∧ sz = 2 then .todo
  else if offset = 58 ∧ sz = 2 then .todo
  else .ok 0

/-- `VirtioPciRegisterMmio::write` (Mmio impl in `pci.rs`): dispatch on
`(offset, size)` in the source's match-arm order.  Unknown pairs are logged
no-ops; `queue_reset` and the queue-notify doorbell base offset are
`todo!()`. -/
def write (s : RegState) (offset sz val : Nat) : MmioR RegState :=
  if offset = 0 ∧ sz = 4 then .ok { s with device_feature_sel := val % 256 }
  else if offset = 8 ∧ sz = 4 then .ok { s with driver_feature_sel := val % 256 }
  else if offset = 12 ∧ sz = 4 then
    .ok (if s.driver_feature_sel > 0 then
           { s with driver_feature := set_high32 s.driver_feature val }
         else
           { s with driver_feature := set_low32 s.driver_feature val })
  else if offset = 16 ∧ sz = 2 then .ok { s with config_msix := val % 2 ^ 16 }
  else if offset = 20 ∧ sz = 1 then .ok (write_status s val)
  else if offset = 22 ∧ sz = 2 then .ok { s with queue_sel := val % 2 ^ 16 }
  else if offset = 24 ∧ sz = 2 then
    .ok (writeQueueField s fun q => { q with size := val % 2 ^ 16 })
  else if offset = 26 ∧ sz = 2 then .ok (writeQueueMsix s val)
  else if offset = 28 ∧ sz = 2 then
    .ok (writeQueueField s fun q => { q with enabled := val != 0 })
  else if offset = 32 ∧ sz = 4 then
    .ok (writeQueueField s fun q => { q with desc := set_low32 q.desc val })
  else if offset = 36 ∧ sz = 4 then
    .ok (writeQueueField s fun q => { q with desc := set_high32 q.desc val })
  else if offset = 40 ∧ sz = 4 then
    .ok (writeQueueField s fun q => { q with driver := set_low32 q.driver val })
  else if offset = 44 ∧ sz = 4 then
    .ok (writeQueueField s fun q => { q with driver := set_high32 q.driver val })
  else if offset = 48 ∧ sz = 4 then
    .ok (writeQueueField s fun q => { q with device := set_low32 q.device val })
  else if offset = 52 ∧ sz = 4 then
    .ok (writeQueueField s fun q => { q with device := set_high32 q.device val })
  else if offset = 58 ∧ sz = 2 then .todo
  else if offset = 64 then .todo
  else .ok s

/-- Run a write that is known to return `Ok`, for chaining guest register
sequences; a `todo` outcome is left as the unchanged state. -/
def execW (s : RegState) (offset sz val : Nat) : RegState :=
  match write s offset sz val with
  | .ok t => t
  | .todo => s

/-- `MsixTableEntry` from `crate::pci::cap` as consumed by `PciIrqSender`:
address halves, data, and the mask bit of the vector-control word. -/
structure MsixTableEntry where
  addr_lo : Nat
  addr_hi : Nat
  data : Nat
  masked : Bool
deriving DecidableEq, Repr

/-- The state read by `PciIrqSender`: the MSI-X vector map
(`VirtioPciMsixVector`) and the shared MSI-X table entries. -/
structure IrqState where
  config_vector : Nat
  queue_vectors : List Nat
  entries : List MsixTableEntry
deriving DecidableEq, Repr

/-- `PciIrqSender::send`: look the vector up in the MSI-X table; missing
entries and masked entries are logged and dropped; otherwise the submitted
MSI is `(addr_hi << 32 | addr_lo, data)`.  Returns the submitted message, or
`none` when nothing is submitted. -/
def PciIrqSender.send (s : IrqState) (vector : Nat) : Option (Nat × Nat) :=
  match s.entries.get? vector with
  | none => none
  | some e =>
    if e.masked then none
    else some ((e.addr_hi <<< 32) ||| e.addr_lo, e.data)

/-- `PciIrqSender::config_irq`: deliver on the config vector unless it is
`NO_VECTOR`. -/
def PciIrqSender.config_irq (s : IrqState) : Option (Nat × Nat) :=
  if s.config_vector ≠ VIRTIO_MSI_NO_VECTOR then PciIrqSender.send s s.config_vector
  else none

/-- `PciIrqSender::queue_irq`: an invalid queue index is logged and dropped;
otherwise deliver on the queue's vector unless it is `NO_VECTOR`. -/
def PciIrqSender.queue_irq (s : IrqState) (idx : Nat) : Option (Nat × Nat) :=
  match s.queue_vectors.get? idx with
  | none => none
  | some vector =>
    if vector ≠ VIRTIO_MSI_NO_VECTOR then PciIrqSender.send s vector
    else none

/-- Modelled from the spec: `VirtioFeature::ACCESS_PLATFORM`
(`crate::virtio`, outside src/) at its standard virtio bit position 33. -/
def ACCESS_PLATFORM : Nat := 2 ^ 33

/-- Modelled from the spec: `VirtioFeature::RING_PACKED` (`crate::virtio`,
outside src/) at its standard virtio bit position 34. -/
def RING_PACKED : Nat := 2 ^ 34

/-- All 64 bits set, for `!ACCESS_PLATFORM` complements on u64. -/
def MASK64 : Nat := 2 ^ 64 - 1

/-- The feature word `DeviceWorker::loop_until_reset` passes to
`dev.activate`: `feature & !VirtioFeature::ACCESS_PLATFORM.bits()`. -/
def negotiate (f : Nat) : Nat := f &&& (MASK64 ^^^ ACCESS_PLATFORM)

/-- `DeviceWorker::wait_start`: drain the wake channel, logging and dropping
`Notify` events, until a `Start`, `Shutdown` or `Reset` event arrives (which
is returned); with nothing left the worker keeps blocking in `poll`. -/
def wait_start : List WakeEvent → Option (WakeEvent × List WakeEvent)
  | [] => none
  | .notify _ :: rest => wait_start rest
  | e :: rest => some (e, rest)

/-- The record of the `dev.activate` call made by
`DeviceWorker::loop_until_reset`: the feature word and irq sender passed. -/
structure ActivateCall where
  feature : Nat
  irq_sender : Nat
deriving DecidableEq, Repr

/-- How one round of `DeviceWorker::loop_until_reset` leaves the worker,
given the queued wake events.  `activate_ok` abstracts the device
implementation's `activate` result (it is outside src/). -/
inductive StartOutcome where
  | blocked
  | shutdownAction
  | activateErr (call : ActivateCall)
  | todoPacked (call : ActivateCall)
  | running (call : ActivateCall) (feature : Nat)
deriving DecidableEq, Repr

/-- `DeviceWorker::loop_until_reset` up to entering the Running event loop:
`wait_start` must yield a `Start` (anything else returns
`DevAction::Shutdown`); then `dev.activate` is invoked with
`feature & !ACCESS_PLATFORM`; an `Err` propagates out (`?`); otherwise a
feature word containing `RING_PACKED` reaches `todo!()`, and only a split
queue set is ever installed. -/
def loop_until_reset (activate_ok : Nat → Bool) (pending : List WakeEvent) :
    StartOutcome :=
  match wait_start pending with
  | none => .blocked
  | some (.start f ir, _) =>
    let call : ActivateCall := ⟨negotiate f, ir⟩
    if activate_ok (negotiate f) = false then .activateErr call
    else if f &&& RING_PACKED ≠ 0 then .todoPacked call
    else .running call f
  | some (_, _) => .shutdownAction

/-- The worker lifecycle states of the spec's state machine. -/
inductive WorkerPhase where
  | waitStart
  | running (feature : Nat)
  | terminated
deriving DecidableEq, Repr

/-- One round of `DeviceWorker::do_work` starting from the pre-start wait:
`loop_until_reset` returning `DevAction::Shutdown` breaks the loop (thread
returns), an `Err` or a panic also ends the thread, and only a successful
non-packed `Start` enters Running. -/
def worker_step_from_wait (activate_ok : Nat → Bool)
    (pending : List WakeEvent) : WorkerPhase :=
  match loop_until_reset activate_ok pending with
  | .blocked => .waitStart
  | .shutdownAction => .terminated
  | .activateErr _ => .terminated
  | .todoPacked _ => .terminated
  | .running _ f => .running f

/-- A concrete queue register block used to exercise the model. -/
def exQ : Queue := ⟨256, true, 0x11 * 2 ^ 32 + 0x22, 3 * 2 ^ 32 + 1, 7 * 2 ^ 32 + 2⟩

/-- A concrete two-queue device state used to exercise the model. -/
def exS : RegState where
  device_feature := 5 * 2 ^ 32 + 7
  driver_feature := 9 * 2 ^ 32 + 8
  device_feature_sel := 0
  driver_feature_sel := 0
  queue_sel := 0
  status := 0
  config_msix := 3
  queue_msix := [1, 2]
  queues := [exQ, exQ]
  irq_sender := 11
  events := []

/-- A concrete MSI-X state: one queue mapped to vector 3, whose table entry
is unmasked with address `0x2_0000_1000` and data `0x42`; entry 1 is
masked. -/
def exIrq : IrqState :=
  ⟨0xffff, [3], [⟨0, 0, 0, false⟩, ⟨0, 0, 0, true⟩, ⟨0, 0, 0, false⟩,
    ⟨0x1000, 0x2, 0x42, false⟩]⟩

/-- Splitting a 64-bit word: `(hi <<< 32) ||| lo = hi * 2 ^ 32 + lo` when the
low half fits in 32 bits. -/
theorem shiftLeft32_or_eq (hi lo : Nat) (hlo : lo < 2 ^ 32) :
    (hi <<< 32) ||| lo = hi * 2 ^ 32 + lo := by
  apply Nat.eq_of_testBit_eq
  intro i
  rw [Nat.testBit_lor, Nat.testBit_shiftLeft,
    show hi * 2 ^ 32 + lo = 2 ^ 32 * hi + lo by ring,
    Nat.testBit_mul_pow_two_add hi hlo i]
  by_cases h : i < 32
  · simp [h, Nat.not_le_of_lt h]
  · have hx : lo.testBit i = false :=
      Nat.testBit_lt_two_pow
        (lt_of_lt_of_le hlo (Nat.pow_le_pow_right (by norm_num) (by omega)))
    simp [h, Nat.le_of_not_lt h, hx]

/-- Writing the low half and then the high half of a 64-bit word yields
`hi * 2 ^ 32 + lo`. -/
theorem set_low_then_high (x lo hi : Nat) (hlo : lo < 2 ^ 32)
    (hhi : hi < 2 ^ 32) :
    set_high32 (set_low32 x lo) hi = hi * 2 ^ 32 + lo := by
  unfold set_low32 set_high32
  omega

/-- C7: for every in-range selected queue, reading `queue_driver_lo` (offset
40) and `queue_device_lo` (offset 48) returns the HIGH 32 bits of the queue's
driver-area and device-area addresses respectively — the behavior the spec
flags as a source bug (`get_atomic_high32` in both `_LO` read arms). -/
theorem C7_queue_driver_device_lo_read_high (s : RegState) (q : Queue)
    (h : s.queues.get? s.queue_sel = some q) :
    read s 40 4 = .ok (get_high32 q.driver) ∧
    read s 48 4 = .ok (get_high32 q.device) := by
  have h' : s.queues[s.queue_sel]? = some q := by
    rw [← List.get?_eq_getElem?]; exact h
  constructor <;> simp [read, h']

/-- C7 witness: on the concrete state the two `_lo` reads return the high
halves 3 and 7. -/
theorem C7_witness : read exS 40 4 = .ok 3 ∧ read exS 48 4 = .ok 7 := by
  obtain ⟨h1, h2⟩ := C7_queue_driver_device_lo_read_high exS exQ rfl
  exact ⟨by rw [h1]; rfl, by rw [h2]; rfl⟩

/-- C4 counterexample: with selector 2 (neither 0 nor 1) the feature reads
return the HIGH 32 bits (5 resp. 9), not 0 as the claim states. -/
theorem C4_counterexample :
    ({ exS with device_feature_sel := 2, driver_feature_sel := 2 } :
        RegState).device_feature_sel = 2 ∧
    read { exS with device_feature_sel := 2, driver_feature_sel := 2 } 4 4 =
      .ok 5 ∧
    read { exS with device_feature_sel := 2, driver_feature_sel := 2 } 12 4 =
      .ok 9 ∧
    (MmioR.ok 5 : MmioR Nat) ≠ .ok 0 := by decide

/-- C4 amended: selector 0 reads the low 32 bits, and ANY nonzero selector
(not only 1) reads the high 32 bits, for both `device_feature` and
`driver_feature`. -/
theorem C4_feature_read_amended (s : RegState) :
    (s.device_feature_sel = 0 →
      read s 4 4 = .ok (get_low32 s.device_feature)) ∧
    (s.device_feature_sel ≠ 0 →
      read s 4 4 = .ok (get_high32 s.device_feature)) ∧
    (s.driver_feature_sel = 0 →
      read s 12 4 = .ok (get_low32 s.driver_feature)) ∧
    (s.driver_feature_sel ≠ 0 →
      read s 12 4 = .ok (get_high32 s.driver_feature)) := by
  refine ⟨fun h => ?_, fun h => ?_, fun h => ?_, fun h => ?_⟩ <;>
    simp [read, h, Nat.pos_of_ne_zero]

/-- C4 witness: the amended reads evaluated on concrete states with selector
0 and selector 2. -/
theorem C4_amended_witness :
    read exS 4 4 = .ok (get_low32 exS.device_feature) ∧
    read { exS with device_feature_sel := 2 } 4 4 =
      .ok (get_high32 ({ exS with device_feature_sel := 2 } :
        RegState).device_feature) :=
  ⟨(C4_feature_read_amended exS).1 rfl,
   (C4_feature_read_amended _).2.1 (by decide)⟩

/-- C1: a `device_status` write returns `Ok` and swaps in the truncated
status; when the swap changed `DRIVER_OK`, a rising edge posts exactly one
`Start` event carrying the full 64-bit `driver_feature` snapshot and the
transport's irq sender (all other state untouched); a falling edge (including
writing 0) sets the config and every queue MSI-X vector to `NO_VECTOR` and
every queue's enabled flag to false, and posts exactly one `Reset`; when
`DRIVER_OK` did not change, no event is posted and only the status byte
changes. -/
theorem C1_device_status_write (s : RegState) (val : Nat) :
    write s 20 1 val = .ok (write_status s val) ∧
    (write_status s val).status = DevStatus.from_bits_truncate val ∧
    (((s.status ^^^ DevStatus.from_bits_truncate val) &&& DevStatus.DRIVER_OK ≠ 0 ∧
        DevStatus.from_bits_truncate val &&& DevStatus.DRIVER_OK ≠ 0) →
      write_status s val =
        { s with
          status := DevStatus.from_bits_truncate val,
          events := s.events ++ [.start s.driver_feature s.irq_sender] }) ∧
    (((s.status ^^^ DevStatus.from_bits_truncate val) &&& DevStatus.DRIVER_OK ≠ 0 ∧
        DevStatus.from_bits_truncate val &&& DevStatus.DRIVER_OK = 0) →
      (write_status s val).config_msix = VIRTIO_MSI_NO_VECTOR ∧
      (∀ v ∈ (write_status s val).queue_msix, v = VIRTIO_MSI_NO_VECTOR) ∧
      (∀ q ∈ (write_status s val).queues, q.enabled = false) ∧
      (write_status s val).events = s.events ++ [.reset]) ∧
    ((s.status ^^^ DevStatus.from_bits_truncate val) &&& DevStatus.DRIVER_OK = 0 →
      write_status s val = { s with status := DevStatus.from_bits_truncate val }) := by
  refine ⟨by simp [write], ?_, ?_, ?_, ?_⟩
  · simp only [write_status, wake_up_dev, VirtioPciRegisterMmio.reset]
    split_ifs <;> rfl
  · rintro ⟨h1, h2⟩
    simp only [write_status, h1, h2, if_true, wake_up_dev]
    simp [h1, h2, wake_up_dev]
  · rintro ⟨h1, h2⟩
    have h2' : ¬(DevStatus.from_bits_truncate val &&& DevStatus.DRIVER_OK ≠ 0) := by
      simp [h2]
    simp only [write_status]
    simp [h1, h2', wake_up_dev, VirtioPciRegisterMmio.reset]
  · intro h
    have h' : ¬((s.status ^^^ DevStatus.from_bits_truncate val) &&&
        DevStatus.DRIVER_OK ≠ 0) := by simp [h]
    simp only [write_status]
    simp [h']

/-- C1 witness: writing status 0 while `DRIVER_OK` (bit 2) is set on the
concrete state clears the vector map and enables and posts one `Reset`. -/
theorem C1_witness :
    (write_status { exS with status := 15 } 0).config_msix = VIRTIO_MSI_NO_VECTOR ∧
    (∀ v ∈ (write_status { exS with status := 15 } 0).queue_msix,
      v = VIRTIO_MSI_NO_VECTOR) ∧
    (∀ q ∈ (write_status { exS with status := 15 } 0).queues, q.enabled = false) ∧
    (write_status { exS with status := 15 } 0).events =
      ({ exS with status := 15 } : RegState).events ++ [.reset] :=
  (C1_device_status_write { exS with status := 15 } 0).2.2.2.1
    ⟨by decide, by decide⟩

/-- C8: after writing selector 0, `driver_feature := X`, selector 1,
`driver_feature := Y`, reading back with selector 1 gives `Y`, re-selecting 0
and reading gives `X`, and the stored 64-bit word is `(Y <<< 32) ||| X`. -/
theorem C8_driver_feature_round_trip (s : RegState) (X Y : Nat)
    (hX : X < 2 ^ 32) (hY : Y < 2 ^ 32) :
    read (execW (execW (execW (execW s 8 4 0) 12 4 X) 8 4 1) 12 4 Y) 12 4 =
      .ok Y ∧
    read (execW (execW (execW (execW (execW s 8 4 0) 12 4 X) 8 4 1) 12 4 Y)
      8 4 0) 12 4 = .ok X ∧
    (execW (execW (execW (execW s 8 4 0) 12 4 X) 8 4 1) 12 4 Y).driver_feature =
      (Y <<< 32) ||| X := by
  have hdf : (execW (execW (execW (execW s 8 4 0) 12 4 X) 8 4 1) 12 4 Y
      ).driver_feature = Y * 2 ^ 32 + X := by
    simp [execW, write]
    rw [set_low_then_high s.driver_feature X Y hX hY]
    norm_num
  refine ⟨?_, ?_, ?_⟩
  · have hsel : (execW (execW (execW (execW s 8 4 0) 12 4 X) 8 4 1) 12 4 Y
        ).driver_feature_sel = 1 := by
      simp [execW, write]
    simp [read, hsel, hdf, get_high32]
    omega
  · simp [read, execW, write]
    rw [set_low_then_high s.driver_feature X Y hX hY]
    simp [get_low32]
    omega
  · rw [hdf, shiftLeft32_or_eq Y X hX]

/-- C8 witness: the round trip evaluated at `X = 3`, `Y = 9` on the concrete
state. -/
theorem C8_witness :
    read (execW (execW (execW (execW exS 8 4 0) 12 4 3) 8 4 1) 12 4 9) 12 4 =
      .ok 9 ∧
    read (execW (execW (execW (execW (execW exS 8 4 0) 12 4 3) 8 4 1) 12 4 9)
      8 4 0) 12 4 = .ok 3 ∧
    (execW (execW (execW (execW exS 8 4 0) 12 4 3) 8 4 1) 12 4 9
      ).driver_feature = (9 <<< 32) ||| 3 :=
  C8_driver_feature_round_trip exS 3 9 (by norm_num) (by norm_num)

/-- C9: with `queue_select` out of range, every queue-indexed register reads
as 0 (`NO_VECTOR` for the MSI-X slot) and every queue-indexed write returns
`Ok` with the state unchanged.  The vector-map length always equals the queue
count (both are built from `num_queues` in `VirtioPciDevice::new`). -/
theorem C9_queue_select_out_of_range (s : RegState) (v : Nat)
    (h : s.queues.length ≤ s.queue_sel)
    (hm : s.queue_msix.length = s.queues.length) :
    read s 24 2 = .ok 0 ∧ read s 28 2 = .ok 0 ∧
    read s 32 4 = .ok 0 ∧ read s 36 4 = .ok 0 ∧
    read s 40 4 = .ok 0 ∧ read s 44 4 = .ok 0 ∧
    read s 48 4 = .ok 0 ∧ read s 52 4 = .ok 0 ∧
    read s 26 2 = .ok VIRTIO_MSI_NO_VECTOR ∧
    write s 24 2 v = .ok s ∧ write s 26 2 v = .ok s ∧
    write s 28 2 v = .ok s ∧ write s 32 4 v = .ok s ∧
    write s 36 4 v = .ok s ∧ write s 40 4 v = .ok s ∧
    write s 44 4 v = .ok s ∧ write s 48 4 v = .ok s ∧
    write s 52 4 v = .ok s := by
  have hq : s.queues.get? s.queue_sel = none := List.get?_eq_none.mpr h
  have hx : s.queue_msix.get? s.queue_sel = none :=
    List.get?_eq_none.mpr (hm ▸ h)
  have hq' : s.queues[s.queue_sel]? = none := by
    rw [← List.get?_eq_getElem?]; exact hq
  have hx' : s.queue_msix[s.queue_sel]? = none := by
    rw [← List.get?_eq_getElem?]; exact hx
  refine ⟨?_, ?_, ?_, ?_, ?_, ?_, ?_, ?_, ?_, ?_, ?_, ?_, ?_, ?_, ?_, ?_,
    ?_, ?_⟩ <;>
    simp [read, write, writeQueueField, writeQueueMsix, hq, hx, hq', hx']

/-- C9 witness: the out-of-range behavior evaluated with `queue_select = 5`
on the concrete two-queue state. -/
theorem C9_witness :
    read { exS with queue_sel := 5 } 24 2 = .ok 0 ∧
    read { exS with queue_sel := 5 } 28 2 = .ok 0 ∧
    read { exS with queue_sel := 5 } 32 4 = .ok 0 ∧
    read { exS with queue_sel := 5 } 36 4 = .ok 0 ∧
    read { exS with queue_sel := 5 } 40 4 = .ok 0 ∧
    read { exS with queue_sel := 5 } 44 4 = .ok 0 ∧
    read { exS with queue_sel := 5 } 48 4 = .ok 0 ∧
    read { exS with queue_sel := 5 } 52 4 = .ok 0 ∧
    read { exS with queue_sel := 5 } 26 2 = .ok VIRTIO_MSI_NO_VECTOR ∧
    write { exS with queue_sel := 5 } 24 2 77 = .ok { exS with queue_sel := 5 } ∧
    write { exS with queue_sel := 5 } 26 2 77 = .ok { exS with queue_sel := 5 } ∧
    write { exS with queue_sel := 5 } 28 2 77 = .ok { exS with queue_sel := 5 } ∧
    write { exS with queue_sel := 5 } 32 4 77 = .ok { exS with queue_sel := 5 } ∧
    write { exS with queue_sel := 5 } 36 4 77 = .ok { exS with queue_sel := 5 } ∧
    write { exS with queue_sel := 5 } 40 4 77 = .ok { exS with queue_sel := 5 } ∧
    write { exS with queue_sel := 5 } 44 4 77 = .ok { exS with queue_sel := 5 } ∧
    write { exS with queue_sel := 5 } 48 4 77 = .ok { exS with queue_sel := 5 } ∧
    write { exS with queue_sel := 5 } 52 4 77 = .ok { exS with queue_sel := 5 } :=
  C9_queue_select_out_of_range { exS with queue_sel := 5 } 77
    (by decide) (by decide)

/-- C10: interrupt delivery is total and drops invalid requests — a queue
index beyond the vector map yields no MSI; a vector beyond the MSI-X table
yields no MSI; a masked entry yields no MSI; and whenever `queue_irq` does
submit an MSI, its queue vector is present, differs from `NO_VECTOR`, its
table entry is unmasked, and the message is
`((addr_hi <<< 32) ||| addr_lo, data)` of that entry. -/
theorem C10_irq_delivery (st : IrqState) :
    (∀ idx, st.queue_vectors.length ≤ idx →
      PciIrqSender.queue_irq st idx = none) ∧
    (∀ vec, st.entries.length ≤ vec → PciIrqSender.send st vec = none) ∧
    (∀ vec e, st.entries.get? vec = some e → e.masked = true →
      PciIrqSender.send st vec = none) ∧
    (∀ idx a d, PciIrqSender.queue_irq st idx = some (a, d) →
      ∃ vec e, st.queue_vectors.get? idx = some vec ∧
        vec ≠ VIRTIO_MSI_NO_VECTOR ∧ st.entries.get? vec = some e ∧
        e.masked = false ∧ a = (e.addr_hi <<< 32) ||| e.addr_lo ∧
        d = e.data) := by
  refine ⟨?_, ?_, ?_, ?_⟩
  · intro idx h
    have hv : st.queue_vectors[idx]? = none := by
      rw [← List.get?_eq_getElem?]; exact List.get?_eq_none.mpr h
    simp [PciIrqSender.queue_irq, hv]
  · intro vec h
    have he : st.entries[vec]? = none := by
      rw [← List.get?_eq_getElem?]; exact List.get?_eq_none.mpr h
    simp [PciIrqSender.send, he]
  · intro vec e he hm
    have he' : st.entries[vec]? = some e := by
      rw [← List.get?_eq_getElem?]; exact he
    simp [PciIrqSender.send, he', hm]
  · intro idx a d h
    unfold PciIrqSender.queue_irq at h
    split at h
    · exact absurd h (by simp)
    · rename_i vec hv
      split_ifs at h with hnv
      unfold PciIrqSender.send at h
      split at h
      · exact absurd h (by simp)
      · rename_i e he
        split_ifs at h with hmk
        have hp := Option.some.inj h
        have ha : a = e.addr_hi <<< 32 ||| e.addr_lo :=
          (congrArg Prod.fst hp).symm
        have hd : d = e.data := (congrArg Prod.snd hp).symm
        exact ⟨vec, e, hv, hnv, he, Bool.eq_false_iff.mpr hmk, ha, hd⟩

/-- C10 witness: on the concrete MSI-X state, queue index 5 is dropped,
vector 9 has no table entry, the masked entry 1 is dropped, and the actual
submission on queue 0 matches entry 3's address and data. -/
theorem C10_witness :
    PciIrqSender.queue_irq exIrq 5 = none ∧
    PciIrqSender.send exIrq 9 = none ∧
    PciIrqSender.send exIrq 1 = none :=
  ⟨(C10_irq_delivery exIrq).1 5 (by decide),
   (C10_irq_delivery exIrq).2.1 9 (by decide),
   (C10_irq_delivery exIrq).2.2.1 1 ⟨0, 0, 0, true⟩ (by decide) (by decide)⟩

set_option maxHeartbeats 1000000 in
/-- A read reaches `todo!()` exactly at the `queue_notify_data` (56,2) and
`queue_reset` (58,2) register cells. -/
theorem read_todo_iff (s : RegState) (o sz : Nat) :
    read s o sz = .todo ↔ ((o = 56 ∨ o = 58) ∧ sz = 2) := by
  constructor
  · intro hEq
    unfold read at hEq
    by_cases h1 : o = 0 ∧ sz = 4
    · rw [if_pos h1] at hEq; exact MmioR.noConfusion hEq
    rw [if_neg h1] at hEq
    by_cases h2 : o = 4 ∧ sz = 4
    · rw [if_pos h2] at hEq; exact MmioR.noConfusion hEq
    rw [if_neg h2] at hEq
    by_cases h3 : o = 8 ∧ sz = 4
    · rw [if_pos h3] at hEq; exact MmioR.noConfusion hEq
    rw [if_neg h3] at hEq
    by_cases h4 : o = 12 ∧ sz = 4
    · rw [if_pos h4] at hEq; exact MmioR.noConfusion hEq
    rw [if_neg h4] at hEq
    by_cases h5 : o = 16 ∧ sz = 2
    · rw [if_pos h5] at hEq; exact MmioR.noConfusion hEq
    rw [if_neg h5] at hEq
    by_cases h6 : o = 18 ∧ sz = 2
    · rw [if_pos h6] at hEq; exact MmioR.noConfusion hEq
    rw [if_neg h6] at hEq
    by_cases h7 : o = 20 ∧ sz = 1
    · rw [if_pos h7] at hEq; exact MmioR.noConfusion hEq
    rw [if_neg h7] at hEq
    by_cases h8 : o = 21 ∧ sz = 1
    · rw [if_pos h8] at hEq; exact MmioR.noConfusion hEq
    rw [if_neg h8] at hEq
    by_cases h9 : o = 22 ∧ sz = 2
    · rw [if_pos h9] at hEq; exact MmioR.noConfusion hEq
    rw [if_neg h9] at hEq
    by_cases h10 : o = 24 ∧ sz = 2
    · rw [if_pos h10] at hEq; exact MmioR.noConfusion hEq
    rw [if_neg h10] at hEq
    by_cases h11 : o = 26 ∧ sz = 2
    · rw [if_pos h11] at hEq; exact MmioR.noConfusion hEq
    rw [if_neg h11] at hEq
    by_cases h12 : o = 28 ∧ sz = 2
    · rw [if_pos h12] at hEq; exact MmioR.noConfusion hEq
    rw [if_neg h12] at hEq
    by_cases h13 : o = 30 ∧ sz = 2
    · rw [if_pos h13] at hEq; exact MmioR.noConfusion hEq
    rw [if_neg h13] at hEq
    by_cases h14 : o = 32 ∧ sz = 4
    · rw [if_pos h14] at hEq; exact MmioR.noConfusion hEq
    rw [if_neg h14] at hEq
    by_cases h15 : o = 36 ∧ sz = 4
    · rw [if_pos h15] at hEq; exact MmioR.noConfusion hEq
    rw [if_neg h15] at hEq
    by_cases h16 : o = 40 ∧ sz = 4
    · rw [if_pos h16] at hEq; exact MmioR.noConfusion hEq
    rw [if_neg h16] at hEq
    by_cases h17 : o = 44 ∧ sz = 4
    · rw [if_pos h17] at hEq; exact MmioR.noConfusion hEq
    rw [if_neg h17] at hEq
    by_cases h18 : o = 48 ∧ sz = 4
    · rw [if_pos h18] at hEq; exact MmioR.noConfusion hEq
    rw [if_neg h18] at hEq
    by_cases h19 : o = 52 ∧ sz = 4
    · rw [if_pos h19] at hEq; exact MmioR.noConfusion hEq
    rw [if_neg h19] at hEq
    by_cases h20 : o = 56 ∧ sz = 2
    · rw [if_pos h20] at hEq; omega
    rw [if_neg h20] at hEq
    by_cases h21 : o = 58 ∧ sz = 2
    · rw [if_pos h21] at hEq; omega
    rw [if_neg h21] at hEq
    exact MmioR.noConfusion hEq
  · rintro ⟨ho | ho, hs⟩ <;> subst ho <;> subst hs <;> rfl

set_option maxHeartbeats 1000000 in
/-- A write reaches `todo!()` exactly at the `queue_reset` (58,2) cell and at
the queue-notify doorbell base offset 64 (any size). -/
theorem write_todo_iff (s : RegState) (o sz v : Nat) :
    write s o sz v = .todo ↔ ((o = 58 ∧ sz = 2) ∨ o = 64) := by
  constructor
  · intro hEq
    unfold write at hEq
    by_cases h1 : o = 0 ∧ sz = 4
    · rw [if_pos h1] at hEq; exact MmioR.noConfusion hEq
    rw [if_neg h1] at hEq
    by_cases h2 : o = 8 ∧ sz = 4
    · rw [if_pos h2] at hEq; exact MmioR.noConfusion hEq
    rw [if_neg h2] at hEq
    by_cases h3 : o = 12 ∧ sz = 4
    · rw [if_pos h3] at hEq; exact MmioR.noConfusion hEq
    rw [if_neg h3] at hEq
    by_cases h4 : o = 16 ∧ sz = 2
    · rw [if_pos h4] at hEq; exact MmioR.noConfusion hEq
    rw [if_neg h4] at hEq
    by_cases h5 : o = 20 ∧ sz = 1
    · rw [if_pos h5] at hEq; exact MmioR.noConfusion hEq
    rw [if_neg h5] at hEq
    by_cases h6 : o = 22 ∧ sz = 2
    · rw [if_pos h6] at hEq; exact MmioR.noConfusion hEq
    rw [if_neg h6] at hEq
    by_cases h7 : o = 24 ∧ sz = 2
    · rw [if_pos h7] at hEq; exact MmioR.noConfusion hEq
    rw [if_neg h7] at hEq
    by_cases h8 : o = 26 ∧ sz = 2
    · rw [if_pos h8] at hEq; exact MmioR.noConfusion hEq
    rw [if_neg h8] at hEq
    by_cases h9 : o = 28 ∧ sz = 2
    · rw [if_pos h9] at hEq; exact MmioR.noConfusion hEq
    rw [if_neg h9] at hEq
    by_cases h10 : o = 32 ∧ sz = 4
    · rw [if_pos h10] at hEq; exact MmioR.noConfusion hEq
    rw [if_neg h10] at hEq
    by_cases h11 : o = 36 ∧ sz = 4
    · rw [if_pos h11] at hEq; exact MmioR.noConfusion hEq
    rw [if_neg h11] at hEq
    by_cases h12 : o = 40 ∧ sz = 4
    · rw [if_pos h12] at hEq; exact MmioR.noConfusion hEq
    rw [if_neg h12] at hEq
    by_cases h13 : o = 44 ∧ sz = 4
    · rw [if_pos h13] at hEq; exact MmioR.noConfusion hEq
    rw [if_neg h13] at hEq
    by_cases h14 : o = 48 ∧ sz = 4
    · rw [if_pos h14] at hEq; exact MmioR.noConfusion hEq
    rw [if_neg h14] at hEq
    by_cases h15 : o = 52 ∧ sz = 4
    · rw [if_pos h15] at hEq; exact MmioR.noConfusion hEq
    rw [if_neg h15] at hEq
    by_cases h16 : o = 58 ∧ sz = 2
    · rw [if_pos h16] at hEq; omega
    rw [if_neg h16] at hEq
    by_cases h17 : o = 64
    · rw [if_pos h17] at hEq; omega
    rw [if_neg h17] at hEq
    exact MmioR.noConfusion hEq
  · rintro (⟨ho, hs⟩ | ho)
    · subst ho; subst hs; rfl
    · subst ho; rfl

/-- C3 counterexample: reads of `queue_notify_data` (56,2) and `queue_reset`
(58,2), and writes of `queue_reset`, reach `todo!()` — they panic instead of
returning `Ok`, so the claim that every access succeeds is false. -/
theorem C3_counterexample :
    read exS 56 2 = .todo ∧ read exS 58 2 = .todo ∧
    write exS 58 2 0 = .todo ∧ write exS 64 4 0 = .todo ∧
    (MmioR.todo : MmioR Nat) ≠ .ok 0 := by decide

/-- C3 amended: every access returns `Ok` — with unknown offsets reading 0
and writing as a no-op — EXCEPT the reserved cells, which reach `todo!()`
(a panic, not an `Err`): reads at (56,2) and (58,2), and writes at (58,2)
and at the doorbell base offset 64.  A write at (56,2) falls through to the
unknown-offset no-op arm and still returns `Ok`. -/
theorem C3_mmio_totality_amended (s : RegState) (o sz v : Nat) :
    (read s o sz = .todo ↔ ((o = 56 ∨ o = 58) ∧ sz = 2)) ∧
    (write s o sz v = .todo ↔ ((o = 58 ∧ sz = 2) ∨ o = 64)) ∧
    write s 56 2 v = .ok s ∧
    (¬((o = 56 ∨ o = 58) ∧ sz = 2) → ∃ r, read s o sz = MmioR.ok r) ∧
    (¬((o = 58 ∧ sz = 2) ∨ o = 64) → ∃ t, write s o sz v = MmioR.ok t) := by
  refine ⟨read_todo_iff s o sz, write_todo_iff s o sz v, by simp [write],
    ?_, ?_⟩
  · intro h
    cases hr : read s o sz with
    | ok r => exact ⟨r, rfl⟩
    | todo => exact absurd ((read_todo_iff s o sz).mp hr) h
  · intro h
    cases hw : write s o sz v with
    | ok t => exact ⟨t, rfl⟩
    | todo => exact absurd ((write_todo_iff s o sz v).mp hw) h

/-- C3 witness: the amended totality evaluated at a representative known
offset (device_feature_select) and an unknown offset. -/
theorem C3_witness :
    (∃ r, read exS 0 4 = MmioR.ok r) ∧
    (∃ t, write exS 100 4 9 = MmioR.ok t) :=
  ⟨(C3_mmio_totality_amended exS 0 4 9).2.2.2.1 (by decide),
   (C3_mmio_totality_amended exS 100 4 9).2.2.2.2 (by decide)⟩

/-- A queue-field update never touches the wake channel. -/
theorem writeQueueField_events (s : RegState) (f : Queue → Queue) :
    (writeQueueField s f).events = s.events := by
  unfold writeQueueField
  cases s.queues.get? s.queue_sel <;> rfl

/-- A queue MSI-X vector update never touches the wake channel. -/
theorem writeQueueMsix_events (s : RegState) (v : Nat) :
    (writeQueueMsix s v).events = s.events := by
  unfold writeQueueMsix
  cases s.queue_msix.get? s.queue_sel <;> rfl

/-- A status write posts nothing, or one `Reset`, or one `Start` with the
`driver_feature` snapshot. -/
theorem write_status_events (s : RegState) (v : Nat) :
    (write_status s v).events = s.events ∨
    (write_status s v).events = s.events ++ [WakeEvent.reset] ∨
    (write_status s v).events =
      s.events ++ [WakeEvent.start s.driver_feature s.irq_sender] := by
  simp only [write_status, wake_up_dev, VirtioPciRegisterMmio.reset]
  split_ifs <;> simp

/-- C5 counterexample: a guest write at the queue-notify base offset 64
reaches `todo!()` (panics) instead of posting a `Notify`, and a write at
offset 68 (queue 1's doorbell cell) is a logged no-op that leaves the state
— including the wake channel — unchanged, with no `Notify` posted. -/
theorem C5_counterexample :
    write exS 64 4 0 = .todo ∧
    write exS 68 4 0 = .ok exS ∧
    exS.events = [] := by decide

/-- C5 amended: the MMIO kick path is unimplemented — a write at the
notify-area base offset reaches `todo!()`, writes at every offset beyond it
are no-ops returning `Ok` with the state unchanged, and no MMIO write ever
posts a `Notify` event (a successful write posts nothing, one `Reset`, or
one `Start`). -/
theorem C5_notify_write_amended (s : RegState) (o sz v : Nat) :
    write s 64 sz v = .todo ∧
    (64 < o → write s o sz v = .ok s) ∧
    (∀ t, write s o sz v = .ok t →
      t.events = s.events ∨
      t.events = s.events ++ [WakeEvent.reset] ∨
      t.events = s.events ++ [WakeEvent.start s.driver_feature s.irq_sender]) := by
  refine ⟨by simp [write], fun h => ?_, fun t ht => ?_⟩
  · unfold write
    rw [if_neg (show ¬(o = 0 ∧ sz = 4) by omega), if_neg (show ¬(o = 8 ∧ sz = 4) by omega), if_neg (show ¬(o = 12 ∧ sz = 4) by omega), if_neg (show ¬(o = 16 ∧ sz = 2) by omega), if_neg (show ¬(o = 20 ∧ sz = 1) by omega), if_neg (show ¬(o = 22 ∧ sz = 2) by omega), if_neg (show ¬(o = 24 ∧ sz = 2) by omega), if_neg (show ¬(o = 26 ∧ sz = 2) by omega), if_neg (show ¬(o = 28 ∧ sz = 2) by omega), if_neg (show ¬(o = 32 ∧ sz = 4) by omega), if_neg (show ¬(o = 36 ∧ sz = 4) by omega), if_neg (show ¬(o = 40 ∧ sz = 4) by omega), if_neg (show ¬(o = 44 ∧ sz = 4) by omega), if_neg (show ¬(o = 48 ∧ sz = 4) by omega), if_neg (show ¬(o = 52 ∧ sz = 4) by omega), if_neg (show ¬(o = 58 ∧ sz = 2) by omega), if_neg (show ¬o = 64 by omega)]
  · unfold write at ht
    by_cases g1 : o = 0 ∧ sz = 4
    · rw [if_pos g1] at ht
      obtain rfl := MmioR.ok.inj ht
      exact Or.inl rfl
    rw [if_neg g1] at ht
    by_cases g2 : o = 8 ∧ sz = 4
    · rw [if_pos g2] at ht
      obtain rfl := MmioR.ok.inj ht
      exact Or.inl rfl
    rw [if_neg g2] at ht
    by_cases g3 : o = 12 ∧ sz = 4
    · rw [if_pos g3] at ht
      obtain rfl := MmioR.ok.inj ht
      refine Or.inl ?_; split_ifs <;> rfl
    rw [if_neg g3] at ht
    by_cases g4 : o = 16 ∧ sz = 2
    · rw [if_pos g4] at ht
      obtain rfl := MmioR.ok.inj ht
      exact Or.inl rfl
    rw [if_neg g4] at ht
    by_cases g5 : o = 20 ∧ sz = 1
    · rw [if_pos g5] at ht
      obtain rfl := MmioR.ok.inj ht
      exact write_status_events s v
    rw [if_neg g5] at ht
    by_cases g6 : o = 22 ∧ sz = 2
    · rw [if_pos g6] at ht
      obtain rfl := MmioR.ok.inj ht
      exact Or.inl rfl
    rw [if_neg g6] at ht
    by_cases g7 : o = 24 ∧ sz = 2
    · rw [if_pos g7] at ht
      obtain rfl := MmioR.ok.inj ht
      exact Or.inl (writeQueueField_events s _)
    rw [if_neg g7] at ht
    by_cases g8 : o = 26 ∧ sz = 2
    · rw [if_pos g8] at ht
      obtain rfl := MmioR.ok.inj ht
      exact Or.inl (writeQueueMsix_events s v)
    rw [if_neg g8] at ht
    by_cases g9 : o = 28 ∧ sz = 2
    · rw [if_pos g9] at ht
      obtain rfl := MmioR.ok.inj ht
      exact Or.inl (writeQueueField_events s _)
    rw [if_neg g9] at ht
    by_cases g10 : o = 32 ∧ sz = 4
    · rw [if_pos g10] at ht
      obtain rfl := MmioR.ok.inj ht
      exact Or.inl (writeQueueField_events s _)
    rw [if_neg g10] at ht
    by_cases g11 : o = 36 ∧ sz = 4
    · rw [if_pos g11] at ht
      obtain rfl := MmioR.ok.inj ht
      exact Or.inl (writeQueueField_events s _)
    rw [if_neg g11] at ht
    by_cases g12 : o = 40 ∧ sz = 4
    · rw [if_pos g12] at ht
      obtain rfl := MmioR.ok.inj ht
      exact Or.inl (writeQueueField_events s _)
    rw [if_neg g12] at ht
    by_cases g13 : o = 44 ∧ sz = 4
    · rw [if_pos g13] at ht
      obtain rfl := MmioR.ok.inj ht
      exact Or.inl (writeQueueField_events s _)
    rw [if_neg g13] at ht
    by_cases g14 : o = 48 ∧ sz = 4
    · rw [if_pos g14] at ht
      obtain rfl := MmioR.ok.inj ht
      exact Or.inl (writeQueueField_events s _)
    rw [if_neg g14] at ht
    by_cases g15 : o = 52 ∧ sz = 4
    · rw [if_pos g15] at ht
      obtain rfl := MmioR.ok.inj ht
      exact Or.inl (writeQueueField_events s _)
    rw [if_neg g15] at ht
    by_cases g16 : o = 58 ∧ sz = 2
    · rw [if_pos g16] at ht; exact MmioR.noConfusion ht
    rw [if_neg g16] at ht
    by_cases g17 : o = 64
    · rw [if_pos g17] at ht; exact MmioR.noConfusion ht
    rw [if_neg g17] at ht
    obtain rfl := MmioR.ok.inj ht
    exact Or.inl rfl

/-- C5 witness: a write beyond the doorbell base (offset 70) returns `Ok`
with the state unchanged, and the successful-write event shapes evaluated on
the concrete state. -/
theorem C5_witness :
    write exS 70 2 1 = .ok exS ∧
    (exS.events = exS.events ∨
     exS.events = exS.events ++ [WakeEvent.reset] ∨
     exS.events = exS.events ++
       [WakeEvent.start exS.driver_feature exS.irq_sender]) :=
  ⟨(C5_notify_write_amended exS 70 2 1).2.1 (by decide),
   (C5_notify_write_amended exS 70 2 1).2.2 exS
     ((C5_notify_write_amended exS 70 2 1).2.1 (by decide))⟩

/-- C2 counterexample: from the pre-start wait, a `Reset` event terminates
the worker — `wait_start` returns it and `loop_until_reset` answers
`DevAction::Shutdown`, which breaks `do_work` — instead of leaving it in
WaitStart as the claim states. -/
theorem C2_counterexample :
    worker_step_from_wait (fun _ => true) [WakeEvent.reset] =
      WorkerPhase.terminated ∧
    WorkerPhase.terminated ≠ WorkerPhase.waitStart := by
  exact ⟨rfl, by decide⟩

/-- C2 amended: in WaitStart, a `Reset` event terminates the worker exactly
like `Shutdown` (so Terminated is reached by Shutdown AND by Reset); a
`Notify` is logged and dropped, leaving the worker waiting; only a `Start`
whose activation succeeds without the packed-ring bit enters Running. -/
theorem C2_wait_start_amended (a : Nat → Bool) (pending : List WakeEvent)
    (q f ir : Nat) :
    worker_step_from_wait a (WakeEvent.reset :: pending) =
      WorkerPhase.terminated ∧
    worker_step_from_wait a (WakeEvent.shutdown :: pending) =
      WorkerPhase.terminated ∧
    worker_step_from_wait a (WakeEvent.notify q :: pending) =
      worker_step_from_wait a pending ∧
    (a (negotiate f) = true → f &&& RING_PACKED = 0 →
      worker_step_from_wait a (WakeEvent.start f ir :: pending) =
        WorkerPhase.running f) := by
  refine ⟨rfl, rfl, ?_, fun h1 h2 => ?_⟩
  · simp [worker_step_from_wait, loop_until_reset, wait_start]
  · simp [worker_step_from_wait, loop_until_reset, wait_start, h1, h2]

/-- C2 witness: the amended transitions evaluated on concrete events, with an
always-succeeding activation and feature word 1. -/
theorem C2_witness :
    worker_step_from_wait (fun _ => true) [WakeEvent.notify 3] =
      worker_step_from_wait (fun _ => true) [] ∧
    worker_step_from_wait (fun _ => true) [WakeEvent.start 1 7] =
      WorkerPhase.running 1 :=
  ⟨(C2_wait_start_amended (fun _ => true) [] 3 1 7).2.2.1,
   (C2_wait_start_amended (fun _ => true) [] 3 1 7).2.2.2 rfl (by decide)⟩

/-- C6 counterexample: with the packed-ring bit set and a device whose
`activate` succeeds, the worker's activation path does not return an error —
it reaches the `todo!()` (panic) after `activate` has already been invoked. -/
theorem C6_counterexample :
    loop_until_reset (fun _ => true) [WakeEvent.start (2 ^ 34) 7] =
      StartOutcome.todoPacked ⟨2 ^ 34, 7⟩ ∧
    StartOutcome.todoPacked ⟨2 ^ 34, 7⟩ ≠
      StartOutcome.activateErr ⟨2 ^ 34, 7⟩ := by decide

/-- C6 amended: `dev.activate` is invoked with the Start feature minus the
ACCESS_PLATFORM bit; when it returns an error the worker terminates (logging
it); when it succeeds and the packed-ring bit is set, the worker reaches the
`todo!()` (a panic, not an error return) and no split queue set is ever
installed — either way the worker never enters Running on a packed-ring
feature. -/
theorem C6_packed_ring_amended (a : Nat → Bool) (f ir : Nat)
    (rest : List WakeEvent) (hp : f &&& RING_PACKED ≠ 0) :
    (a (negotiate f) = false →
      loop_until_reset a (WakeEvent.start f ir :: rest) =
        StartOutcome.activateErr ⟨negotiate f, ir⟩ ∧
      worker_step_from_wait a (WakeEvent.start f ir :: rest) =
        WorkerPhase.terminated) ∧
    (a (negotiate f) = true →
      loop_until_reset a (WakeEvent.start f ir :: rest) =
        StartOutcome.todoPacked ⟨negotiate f, ir⟩ ∧
      worker_step_from_wait a (WakeEvent.start f ir :: rest) =
        WorkerPhase.terminated) := by
  constructor
  · intro h
    constructor
    · simp [loop_until_reset, wait_start, h]
    · simp [worker_step_from_wait, loop_until_reset, wait_start, h]
  · intro h
    constructor
    · simp [loop_until_reset, wait_start, h, hp]
    · simp [worker_step_from_wait, loop_until_reset, wait_start, h, hp]

/-- C6 witness: the packed-ring Start evaluated with an always-succeeding
activation: the outcome is the `todo!()` panic and the worker is gone. -/
theorem C6_witness :
    loop_until_reset (fun _ => true) [WakeEvent.start (2 ^ 34) 7] =
      StartOutcome.todoPacked ⟨negotiate (2 ^ 34), 7⟩ ∧
    worker_step_from_wait (fun _ => true) [WakeEvent.start (2 ^ 34) 7] =
      WorkerPhase.terminated :=
  (C6_packed_ring_amended (fun _ => true) (2 ^ 34) 7 [] (by decide)).2 rfl

end Alioth
